import Mathlib

/-!
Shallow embedding of `src/scripts/oc_example.py`, a command-line tool that
wraps the external `oc` binary for basic user/group administration.

Subprocess execution is modelled by a `world` function giving the outcome of
the i-th subprocess launch of the run.  Every embedded function threads an
explicit state (`St`) recording how many launches have happened, the full
argument vectors issued, and the log lines emitted.  Python exceptions that
the script does not catch (attribute/type errors on unexpected JSON shapes)
are modelled with `Except PyErr`.
-/

/-- Outcome of one attempted subprocess launch: either the process ran and
exited with a code, stdout and stderr, or the launch itself failed (binary
missing, permission denied) raising an exception with a message. -/
inductive ProcOutcome where
  | exited (code : Nat) (stdout stderr : String)
  | launchFailure (msg : String)

/-- JSON values as decoded by `json.loads`.  Numbers are modelled as
integers; fractional/exponent forms are outside the inputs exercised here. -/
inductive Json where
  | null
  | bool (b : Bool)
  | num (n : Int)
  | str (s : String)
  | arr (elems : List Json)
  | obj (fields : List (String × Json))

/-- Left and right curly-brace characters, named to keep JSON text readable. -/
def lbrace : Char := Char.ofNat 123

def rbrace : Char := Char.ofNat 125

def isWs (c : Char) : Bool :=
  c == ' ' || c == '\n' || c == '\t' || c == '\r'

def skipWs : List Char → List Char
  | [] => []
  | c :: cs => if isWs c then skipWs cs else c :: cs

def isDigitCh (c : Char) : Bool :=
  48 ≤ c.toNat && c.toNat ≤ 57

def digitVal (c : Char) : Nat := c.toNat - 48

def takeDigits : List Char → List Char × List Char
  | [] => ([], [])
  | c :: cs =>
    if isDigitCh c then
      let r := takeDigits cs
      (c :: r.1, r.2)
    else ([], c :: cs)

def digitsToNat (ds : List Char) : Nat :=
  ds.foldl (fun a c => a * 10 + digitVal c) 0

def parseNumber (cs : List Char) : Option (Json × List Char) :=
  match cs with
  | '-' :: rest =>
    let r := takeDigits rest
    if r.1.isEmpty then none else some (.num (-(digitsToNat r.1 : Int)), r.2)
  | _ =>
    let r := takeDigits cs
    if r.1.isEmpty then none else some (.num (digitsToNat r.1 : Int), r.2)

/-- Consume the body of a JSON string literal (the opening quote already
consumed), returning the decoded characters and the remaining input. -/
def parseStringChars : Nat → List Char → Option (List Char × List Char)
  | 0, _ => none
  | _ + 1, [] => none
  | fuel + 1, c :: rest =>
    if c = '"' then some ([], rest)
    else if c = '\\' then
      match rest with
      | [] => none
      | e :: rest2 =>
        let dec : Option Char :=
          if e = '"' then some '"'
          else if e = '\\' then some '\\'
          else if e = '/' then some '/'
          else if e = 'n' then some '\n'
          else if e = 't' then some '\t'
          else if e = 'r' then some '\r'
          else none
        match dec with
        | none => none
        | some d =>
          match parseStringChars fuel rest2 with
          | some (out, rem) => some (d :: out, rem)
          | none => none
    else
      match parseStringChars fuel rest with
      | some (out, rem) => some (c :: out, rem)
      | none => none

/-- Check that `cs` starts with `lit` and drop it. -/
def stripPre (lit : List Char) (cs : List Char) : Option (List Char) :=
  match lit, cs with
  | [], rest => some rest
  | l :: ls, c :: rest => if c = l then stripPre ls rest else none
  | _ :: _, [] => none

mutual

/-- Recursive-descent JSON value, fuel-bounded. -/
def parseVal : Nat → List Char → Option (Json × List Char)
  | 0, _ => none
  | fuel + 1, cs =>
    match skipWs cs with
    | [] => none
    | c :: rest =>
      if c = '"' then
        match parseStringChars (fuel + 1) rest with
        | some (chars, rem) => some (.str (String.mk chars), rem)
        | none => none
      else if c = '[' then
        match skipWs rest with
        | c2 :: rem2 =>
          if c2 = ']' then some (.arr [], rem2)
          else
            match parseElems fuel rest with
            | some (xs, rem) => some (.arr xs, rem)
            | none => none
        | [] => none
      else if c = lbrace then
        match skipWs rest with
        | c2 :: rem2 =>
          if c2 = rbrace then some (.obj [], rem2)
          else
            match parseFields fuel rest with
            | some (fs, rem) => some (.obj fs, rem)
            | none => none
        | [] => none
      else if c = 't' then
        match stripPre ['r', 'u', 'e'] rest with
        | some rem => some (.bool true, rem)
        | none => none
      else if c = 'f' then
        match stripPre ['a', 'l', 's', 'e'] rest with
        | some rem => some (.bool false, rem)
        | none => none
      else if c = 'n' then
        match stripPre ['u', 'l', 'l'] rest with
        | some rem => some (.null, rem)
        | none => none
      else parseNumber (c :: rest)

/-- One-or-more comma-separated array elements, up to the closing bracket. -/
def parseElems : Nat → List Char → Option (List Json × List Char)
  | 0, _ => none
  | fuel + 1, cs =>
    match parseVal fuel cs with
    | none => none
    | some (j, rem) =>
      match skipWs rem with
      | c :: rem2 =>
        if c = ',' then
          match parseElems fuel rem2 with
          | some (xs, rem3) => some (j :: xs, rem3)
          | none => none
        else if c = ']' then some ([j], rem2)
        else none
      | [] => none

/-- One-or-more comma-separated object members, up to the closing brace. -/
def parseFields : Nat → List Char → Option (List (String × Json) × List Char)
  | 0, _ => none
  | fuel + 1, cs =>
    match skipWs cs with
    | [] => none
    | c :: rest =>
      if c = '"' then
        match parseStringChars (fuel + 1) rest with
        | none => none
        | some (kchars, rem) =>
          match skipWs rem with
          | [] => none
          | c2 :: rem2 =>
            if c2 = ':' then
              match parseVal fuel rem2 with
              | none => none
              | some (v, rem3) =>
                match skipWs rem3 with
                | [] => none
                | c3 :: rem4 =>
                  if c3 = ',' then
                    match parseFields fuel rem4 with
                    | some (fs, rem5) => some ((String.mk kchars, v) :: fs, rem5)
                    | none => none
                  else if c3 = rbrace then some ([(String.mk kchars, v)], rem4)
                  else none
            else none
      else none

end

/-- Embedding of `json.loads`: parse the whole input as one JSON value,
failing when anything but whitespace is left over. -/
def jsonLoads (s : String) : Option Json :=
  match parseVal (s.length + 1) s.toList with
  | some (j, rem) => if (skipWs rem).isEmpty then some j else none
  | none => none

/-- `dict.get key` lookup on decoded object fields.  `json.loads` keeps the
last occurrence of a duplicated key, so later fields shadow earlier ones. -/
def lookupField (fields : List (String × Json)) (key : String) : Option Json :=
  match fields with
  | [] => none
  | (k, v) :: rest =>
    match lookupField rest key with
    | some r => some r
    | none => if k = key then some v else none

/-- Python `str.strip()`: drop whitespace from both ends.  (Executable
replacement for `String.trim`, which does not reduce definitionally.) -/
def pyStrip (s : String) : String :=
  String.mk (((s.toList.dropWhile fun c => isWs c).reverse.dropWhile
    fun c => isWs c).reverse)

/-- Python exceptions the script never catches. -/
inductive PyErr where
  | attributeError
  | typeError

/-- Python `value.get(key, default)`: raises AttributeError unless the value
is a dict. -/
def pyDictGetD (j : Json) (key : String) (dflt : Json) : Except PyErr Json :=
  match j with
  | .obj fields => .ok ((lookupField fields key).getD dflt)
  | _ => .error .attributeError

/-- Python `value.get(key)` with the implicit `None` default. -/
def pyDictGet (j : Json) (key : String) : Except PyErr Json :=
  match j with
  | .obj fields => .ok ((lookupField fields key).getD Json.null)
  | _ => .error .attributeError

/-- Python `len(value)` on decoded JSON values. -/
def pyLen : Json → Except PyErr Nat
  | .arr xs => .ok xs.length
  | .str s => .ok s.length
  | .obj fields => .ok ((fields.map Prod.fst).dedup.length)
  | _ => .error .typeError

/-- Python truthiness of a decoded JSON value. -/
def pyTruthy : Json → Bool
  | .null => false
  | .bool b => b
  | .num n => n != 0
  | .str s => !s.isEmpty
  | .arr xs => !xs.isEmpty
  | .obj fields => !fields.isEmpty

/-- Python `for x in value` over a decoded JSON value.  The script only ever
iterates decoded arrays; a non-array value (over which Python would iterate
characters or dict keys before failing on `.get`) is modelled as a raised
TypeError. -/
def pyIter : Json → Except PyErr (List Json)
  | .arr xs => .ok xs
  | _ => .error .typeError

/-- Python `value == name` where `name` is a `str`. -/
def jsonEqStr : Json → String → Bool
  | .str s, u => s == u
  | _, _ => false

/-- Log levels of the module-level `logger`. -/
inductive LogLevel where
  | debug
  | info
  | warning
  | error

/-- One constructor per `logger.<level>(...)` call site of the script,
carrying the values interpolated into the message. -/
inductive LogMsg where
  | executing (full : List String)
  | commandFailed (full : List String)
  | commandStderr (err : String)
  | commandException (msg : String)
  | failedGetUsers
  | failedParseUsers
  | failedCreateUser (username output : String)
  | userCreated (username : String)
  | groupMissing (group : String)
  | failedCreateGroup (group : String)
  | addedToGroup (username group : String)
  | failedAddToGroup (username group : String)
  | failedDeleteUser (username output : String)
  | userDeleted (username : String)
  | failedGetGroups
  | failedParseGroups
  | failedAddToGroupOut (username group output : String)
  | notLoggedIn
  | failedGetProject
  | connected (project : String)
  | gettingUserList
  | foundUsers (n : Nat)
  | userListHeader
  | userEntry (name : Json)
  | creatingUser (username : String)
  | createdUserSuccess (username : String)
  | verifiedUser (username : String)
  | userNotFound (username : String)
  | failedCreateUserMain (username : String)
  | deletingUser (username : String)
  | deletedUserSuccess (username : String)
  | failedDeleteUserMain (username : String)
  | addingToGroup (username group : String)
  | addedToGroupMain (username group : String)
  | failedAddToGroupMain (username group : String)
  | gettingGroupList
  | foundGroups (n : Nat)
  | groupListHeader
  | groupEntry (name : Json) (userCount : Nat)
  | noCommandSpecified

/-- Execution state threaded through the embedded script: the outcome of the
i-th subprocess launch (`world`), how many launches have happened (`count`),
the full argument vectors issued so far (`calls`), and the log lines emitted
so far (`logs`). -/
structure St where
  world : Nat → ProcOutcome
  count : Nat
  calls : List (List String)
  logs : List (LogLevel × LogMsg)

def St.init (w : Nat → ProcOutcome) : St :=
  ⟨w, 0, [], []⟩

/-- Append one log line. -/
def logLine (lvl : LogLevel) (m : LogMsg) (s : St) : St :=
  { s with logs := s.logs ++ [(lvl, m)] }

/-- The `(success, output)` pair `run_oc_command` derives from a subprocess
outcome: exit 0 gives `(True, stdout)`, a non-zero exit (CalledProcessError,
since `check=True`) gives `(False, stderr)`, and a launch failure gives
`(False, str(exception))`. -/
def run_result : ProcOutcome → Bool × String
  | .exited 0 stdout _ => (true, stdout)
  | .exited _ _ stderr => (false, stderr)
  | .launchFailure msg => (false, msg)

/-- The log lines `run_oc_command` emits for a subprocess outcome: the debug
line always (it precedes `subprocess.run`), plus the two error lines on a
non-zero exit, or the one exception line on a launch failure. -/
def runLogOf (full : List String) : ProcOutcome → List (LogLevel × LogMsg)
  | .exited 0 _ _ => [(.debug, .executing full)]
  | .exited _ _ stderr =>
    [(.debug, .executing full), (.error, .commandFailed full),
     (.error, .commandStderr (pyStrip stderr))]
  | .launchFailure msg =>
    [(.debug, .executing full), (.error, .commandException msg)]

/-- `run_oc_command`: prepend `"oc"`, launch, and map the outcome to a
`(success, output)` pair, recording the call and its log lines. -/
def run_oc_command (command : List String) (s : St) : (Bool × String) × St :=
  let full := "oc" :: command
  let outcome := s.world s.count
  (run_result outcome,
   { s with
       count := s.count + 1,
       calls := s.calls ++ [full],
       logs := s.logs ++ runLogOf full outcome })

/-- `is_logged_in`: success flag of `oc whoami`. -/
def is_logged_in (s : St) : Bool × St :=
  let r := run_oc_command ["whoami"] s
  (r.1.1, r.2)

/-- `get_users`: one query call; on command failure or a JSON decode failure
log an error and return `[]`; otherwise `data.get('items', [])`, which raises
AttributeError when the decoded value is not a dict. -/
def get_users (s : St) : Except PyErr (Json × St) :=
  let r := run_oc_command ["get", "users", "-o", "json"] s
  if r.1.1 = false then
    .ok (Json.arr [], logLine .error .failedGetUsers r.2)
  else
    match jsonLoads r.1.2 with
    | none => .ok (Json.arr [], logLine .error .failedParseUsers r.2)
    | some (Json.obj fields) =>
      .ok ((lookupField fields "items").getD (Json.arr []), r.2)
    | some _ => .error .attributeError

/-- `get_groups`: same shape as `get_users` with the groups query. -/
def get_groups (s : St) : Except PyErr (Json × St) :=
  let r := run_oc_command ["get", "groups", "-o", "json"] s
  if r.1.1 = false then
    .ok (Json.arr [], logLine .error .failedGetGroups r.2)
  else
    match jsonLoads r.1.2 with
    | none => .ok (Json.arr [], logLine .error .failedParseGroups r.2)
    | some (Json.obj fields) =>
      .ok ((lookupField fields "items").getD (Json.arr []), r.2)
    | some _ => .error .attributeError

/-- Python truthiness of the `groups` argument (`None` and `[]` are falsy). -/
def truthy : Option (List String) → Bool
  | none => false
  | some gs => !gs.isEmpty

/-- Body shared by both branches of the group-ensuring step in
`create_user`'s loop: the membership-add call plus its info/warning line. -/
def addUserStep (username group : String) (s : St) : St :=
  let r := run_oc_command ["adm", "groups", "add-users", group, username] s
  if r.1.1 then logLine .info (.addedToGroup username group) r.2
  else logLine .warning (.failedAddToGroup username group) r.2

/-- The `for group in groups:` loop of `create_user`: query existence,
create the group when absent (a creation failure logs a warning and
`continue`s), then attempt the membership add (failure logs a warning). -/
def addGroupsLoop (username : String) (gs : List String) (s : St) : St :=
  match gs with
  | [] => s
  | group :: rest =>
    let r := run_oc_command ["get", "group", group] s
    if r.1.1 then
      addGroupsLoop username rest (addUserStep username group r.2)
    else
      let s1 := logLine .info (.groupMissing group) r.2
      let r2 := run_oc_command ["adm", "groups", "new", group] s1
      if r2.1.1 then
        addGroupsLoop username rest (addUserStep username group r2.2)
      else
        addGroupsLoop username rest (logLine .warning (.failedCreateGroup group) r2.2)

/-- `create_user`: the create call is fatal on failure; the group loop then
runs when `groups` is truthy, and the function returns `True` regardless of
what happens inside the loop. -/
def create_user (username : String) (groups : Option (List String)) (s : St) :
    Bool × St :=
  let r := run_oc_command ["create", "user", username] s
  if r.1.1 = false then
    (false, logLine .error (.failedCreateUser username r.1.2) r.2)
  else
    let s1 := logLine .info (.userCreated username) r.2
    let s2 := if truthy groups then addGroupsLoop username (groups.getD []) s1 else s1
    (true, s2)

/-- `delete_user`: one delete call, fatal on failure. -/
def delete_user (username : String) (s : St) : Bool × St :=
  let r := run_oc_command ["delete", "user", username] s
  if r.1.1 = false then
    (false, logLine .error (.failedDeleteUser username r.1.2) r.2)
  else
    (true, logLine .info (.userDeleted username) r.2)

/-- The membership-add step shared by both paths of `add_user_to_group`:
failure logs an error (with the captured output) and is fatal. -/
def addMembership (username group : String) (s : St) : Bool × St :=
  let r := run_oc_command ["adm", "groups", "add-users", group, username] s
  if r.1.1 = false then
    (false, logLine .error (.failedAddToGroupOut username group r.1.2) r.2)
  else
    (true, logLine .info (.addedToGroup username group) r.2)

/-- `add_user_to_group`: query group existence; when absent create it (a
creation failure is fatal); then the membership add (fatal on failure). -/
def add_user_to_group (username : String) (group : String) (s : St) : Bool × St :=
  let r := run_oc_command ["get", "group", group] s
  if r.1.1 = false then
    let s1 := logLine .info (.groupMissing group) r.2
    let r2 := run_oc_command ["adm", "groups", "new", group] s1
    if r2.1.1 = false then
      (false, logLine .error (.failedCreateGroup group) r2.2)
    else
      addMembership username group r2.2
  else
    addMembership username group r.2

/-- `check_connection`: `is_logged_in` first (failure reports "not logged
in" and returns False without the project query), then `oc project`
(failure returns False; success logs the stripped context name). -/
def check_connection (s : St) : Bool × St :=
  let l := is_logged_in s
  if l.1 = false then
    (false, logLine .error .notLoggedIn l.2)
  else
    let r := run_oc_command ["project"] l.2
    if r.1.1 = false then
      (false, logLine .error .failedGetProject r.2)
    else
      (true, logLine .info (.connected (pyStrip r.1.2)) r.2)

/-- The parsed command line: one constructor per subcommand, plus
`noCommand` for an invocation without a subcommand (argparse leaves
`args.command = None`).  For `create-user`, `groups` is `args.groups`:
`none` when `--groups` was absent, `some []` when it carried no values. -/
inductive Args where
  | listUsers
  | createUser (username : String) (groups : Option (List String))
  | deleteUser (username : String)
  | addToGroup (username group : String)
  | listGroups
  | noCommand

/-- Observable result of `main`: the process exit status and whether
`parser.print_help()` ran. -/
structure MainOut where
  exit : Nat
  helpPrinted : Bool

/-- The display loop of the `list-users` branch. -/
def logUsersLoop : List Json → St → Except PyErr St
  | [], s => .ok s
  | u :: rest, s =>
    match pyDictGetD u "metadata" (Json.obj []) with
    | .error e => .error e
    | .ok meta =>
      match pyDictGetD meta "name" (Json.str "Unknown") with
      | .error e => .error e
      | .ok nm => logUsersLoop rest (logLine .info (.userEntry nm) s)

/-- The `list-users` branch of `main`. -/
def mainListUsers (s : St) : Except PyErr (MainOut × St) :=
  let s0 := logLine .info .gettingUserList s
  match get_users s0 with
  | .error e => .error e
  | .ok (users, s1) =>
    match pyLen users with
    | .error e => .error e
    | .ok n =>
      let s2 := logLine .info (.foundUsers n) s1
      if pyTruthy users then
        let s3 := logLine .info .userListHeader s2
        match pyIter users with
        | .error e => .error e
        | .ok xs =>
          match logUsersLoop xs s3 with
          | .error e => .error e
          | .ok s4 => .ok (⟨0, false⟩, s4)
      else .ok (⟨0, false⟩, s2)

/-- `groups = args.groups if args.groups else None`. -/
def normalizeGroups : Option (List String) → Option (List String)
  | some gs => if gs.isEmpty then none else some gs
  | none => none

/-- `user.get('metadata', {}).get('name') == username` for one user. -/
def userNameMatches (user : Json) (username : String) : Except PyErr Bool :=
  match pyDictGetD user "metadata" (Json.obj []) with
  | .error e => .error e
  | .ok meta =>
    match pyDictGet meta "name" with
    | .error e => .error e
    | .ok nm => .ok (jsonEqStr nm username)

/-- The short-circuiting `any(...)` over the re-listed users. -/
def anyMatches (username : String) : List Json → Except PyErr Bool
  | [] => .ok false
  | u :: rest =>
    match userNameMatches u username with
    | .error e => .error e
    | .ok true => .ok true
    | .ok false => anyMatches username rest

/-- The `create-user` branch of `main`: normalize `--groups`, create, and on
success re-list the users and report whether the new user appears. -/
def mainCreateUser (username : String) (groupsArg : Option (List String))
    (s : St) : Except PyErr (MainOut × St) :=
  let groups := normalizeGroups groupsArg
  let s0 := logLine .info (.creatingUser username) s
  let r := create_user username groups s0
  if r.1 then
    let s1 := logLine .info (.createdUserSuccess username) r.2
    match get_users s1 with
    | .error e => .error e
    | .ok (usersAfter, s2) =>
      match pyIter usersAfter with
      | .error e => .error e
      | .ok xs =>
        match anyMatches username xs with
        | .error e => .error e
        | .ok found =>
          if found then .ok (⟨0, false⟩, logLine .info (.verifiedUser username) s2)
          else .ok (⟨0, false⟩, logLine .warning (.userNotFound username) s2)
  else
    .ok (⟨0, false⟩, logLine .error (.failedCreateUserMain username) r.2)

/-- The `delete-user` branch of `main`. -/
def mainDeleteUser (username : String) (s : St) : Except PyErr (MainOut × St) :=
  let s0 := logLine .info (.deletingUser username) s
  let r := delete_user username s0
  if r.1 then .ok (⟨0, false⟩, logLine .info (.deletedUserSuccess username) r.2)
  else .ok (⟨0, false⟩, logLine .error (.failedDeleteUserMain username) r.2)

/-- The `add-to-group` branch of `main`. -/
def mainAddToGroup (username group : String) (s : St) :
    Except PyErr (MainOut × St) :=
  let s0 := logLine .info (.addingToGroup username group) s
  let r := add_user_to_group username group s0
  if r.1 then .ok (⟨0, false⟩, logLine .info (.addedToGroupMain username group) r.2)
  else .ok (⟨0, false⟩, logLine .error (.failedAddToGroupMain username group) r.2)

/-- The display loop of the `list-groups` branch. -/
def logGroupsLoop : List Json → St → Except PyErr St
  | [], s => .ok s
  | g :: rest, s =>
    match pyDictGetD g "metadata" (Json.obj []) with
    | .error e => .error e
    | .ok meta =>
      match pyDictGetD meta "name" (Json.str "Unknown") with
      | .error e => .error e
      | .ok nm =>
        match pyDictGetD g "users" (Json.arr []) with
        | .error e => .error e
        | .ok usersJ =>
          match pyLen usersJ with
          | .error e => .error e
          | .ok n => logGroupsLoop rest (logLine .info (.groupEntry nm n) s)

/-- The `list-groups` branch of `main`. -/
def mainListGroups (s : St) : Except PyErr (MainOut × St) :=
  let s0 := logLine .info .gettingGroupList s
  match get_groups s0 with
  | .error e => .error e
  | .ok (groups, s1) =>
    match pyLen groups with
    | .error e => .error e
    | .ok n =>
      let s2 := logLine .info (.foundGroups n) s1
      if pyTruthy groups then
        let s3 := logLine .info .groupListHeader s2
        match pyIter groups with
        | .error e => .error e
        | .ok xs =>
          match logGroupsLoop xs s3 with
          | .error e => .error e
          | .ok s4 => .ok (⟨0, false⟩, s4)
      else .ok (⟨0, false⟩, s2)

/-- `main`: the connection check runs first and a failure exits with status
1; otherwise the matching branch runs and the process exits 0 (the
`.error` results model uncaught Python exceptions). -/
def OcExample.main (args : Args) (s : St) : Except PyErr (MainOut × St) :=
  let c := check_connection s
  if c.1 = false then
    .ok (⟨1, false⟩, c.2)
  else
    match args with
    | .listUsers => mainListUsers c.2
    | .createUser username groups => mainCreateUser username groups c.2
    | .deleteUser username => mainDeleteUser username c.2
    | .addToGroup username group => mainAddToGroup username group c.2
    | .listGroups => mainListGroups c.2
    | .noCommand => .ok (⟨0, true⟩, logLine .error .noCommandSpecified c.2)

/-- Exit status of a run; an uncaught exception makes Python exit 1. -/
def runExit : Except PyErr (MainOut × St) → Nat
  | .ok (o, _) => o.exit
  | .error _ => 1

/-- Whether `parser.print_help()` ran during a run. -/
def runHelpPrinted : Except PyErr (MainOut × St) → Bool
  | .ok (o, _) => o.helpPrinted
  | .error _ => false

/-- The argument vectors of the subprocess calls a run issued. -/
def runCalls : Except PyErr (MainOut × St) → List (List String)
  | .ok (_, s) => s.calls
  | .error _ => []

/-- The log lines a run emitted. -/
def runLogs : Except PyErr (MainOut × St) → List (LogLevel × LogMsg)
  | .ok (_, s) => s.logs
  | .error _ => []

/-! Concrete worlds used to evaluate the theorems on closed inputs. -/

/-- Every subprocess call exits 0 with empty output. -/
def wAllOk : Nat → ProcOutcome := fun _ => .exited 0 "" ""

/-- The very first subprocess call (the identity query) fails. -/
def wFailAuth : Nat → ProcOutcome := fun _ => .exited 1 "" "denied"

/-- First call exits 0 with stdout `"me"`. -/
def wRun : Nat → ProcOutcome := fun _ => .exited 0 "me" ""

/-- Every call exits 0 printing text that is not well-formed JSON. -/
def wBadJson : Nat → ProcOutcome := fun _ => .exited 0 "nope" ""

/-- Every call exits 0 printing a JSON object with no `items` key. -/
def wNoItems : Nat → ProcOutcome := fun _ => .exited 0 "\x7b\x7d" ""

/-- Every call exits 0 printing a JSON object whose `items` is `[]`. -/
def wEmptyItems : Nat → ProcOutcome := fun _ =>
  .exited 0 "\x7b\"items\": []\x7d" ""

/-- Create call succeeds, then the group query and group creation fail. -/
def wC2 : Nat → ProcOutcome := fun n =>
  match n with
  | 0 => .exited 0 "" ""
  | 1 => .exited 1 "" "eget"
  | _ => .exited 1 "" "enew"

/-- Group query and group creation both fail. -/
def wGetNewFail : Nat → ProcOutcome := fun _ => .exited 1 "" "no group"

/-- Group query fails, group creation succeeds, membership add fails. -/
def wNewOkAddFail : Nat → ProcOutcome := fun n =>
  match n with
  | 1 => .exited 0 "" ""
  | _ => .exited 1 "" "boom"

/-- Group query succeeds, membership add fails. -/
def wAddFail : Nat → ProcOutcome := fun n =>
  match n with
  | 0 => .exited 0 "" ""
  | _ => .exited 1 "" "add denied"

/-- Identity query succeeds, context query fails. -/
def wProjFail : Nat → ProcOutcome := fun n =>
  match n with
  | 0 => .exited 0 "alice" ""
  | _ => .exited 1 "" "no project"

/-- A `list-users` run: connection check succeeds, the users query returns
a well-formed empty list. -/
def wList : Nat → ProcOutcome := fun n =>
  match n with
  | 2 => .exited 0 "\x7b\"items\": []\x7d" ""
  | _ => .exited 0 "" ""

/-- A `create-user bob` run: the create call exits 0 and the verification
re-list returns an `items` array containing user `bob`. -/
def wC8 : Nat → ProcOutcome := fun n =>
  match n with
  | 0 => .exited 0 "" ""
  | _ => .exited 0 "\x7b\"items\": [\x7b\"metadata\": \x7b\"name\": \"bob\"\x7d\x7d]\x7d" ""

/-- C5: for every argument list, `run_oc_command` returns `(true, stdout)`
exactly when the process exits 0; on a non-zero exit it returns
`(false, stderr)`; and on a launch failure it returns `(false, exception
message)` instead of raising. -/
theorem run_oc_command_result_policy (command : List String) (s : St) :
    (∀ out err, s.world s.count = .exited 0 out err →
      (run_oc_command command s).1 = (true, out)) ∧
    (∀ code out err, s.world s.count = .exited code out err → code ≠ 0 →
      (run_oc_command command s).1 = (false, err)) ∧
    (∀ msg, s.world s.count = .launchFailure msg →
      (run_oc_command command s).1 = (false, msg)) ∧
    ((run_oc_command command s).1.1 = true ↔
      ∃ out err, s.world s.count = .exited 0 out err) := by
  refine ⟨?_, ?_, ?_, ?_⟩
  · intro out err h
    simp [run_oc_command, h, run_result]
  · intro code out err h hc
    match code, hc with
    | n + 1, _ => simp [run_oc_command, h, run_result]
  · intro msg h
    simp [run_oc_command, h, run_result]
  · constructor
    · intro h
      rcases ho : s.world s.count with ⟨code, out, err⟩ | msg
      · match code with
        | 0 => exact ⟨out, err, rfl⟩
        | n + 1 => simp [run_oc_command, ho, run_result] at h
      · simp [run_oc_command, ho, run_result] at h
    · rintro ⟨out, err, h⟩
      simp [run_oc_command, h, run_result]

/-- Witness for the C5 theorem at concrete outcomes. -/
theorem run_oc_command_result_policy_witness :
    (run_oc_command ["whoami"] (St.init wRun)).1 = (true, "me") ∧
    (run_oc_command ["whoami"] (St.init wFailAuth)).1 = (false, "denied") :=
  ⟨(run_oc_command_result_policy ["whoami"] (St.init wRun)).1 "me" "" rfl,
   (run_oc_command_result_policy ["whoami"] (St.init wFailAuth)).2.1 1 "" "denied" rfl
     (by decide)⟩

/-- C4: whenever the query output is not well-formed JSON, `get_users` and
`get_groups` log a parse error and return the empty list as an ordinary
`.ok` result — indistinguishable to the caller from an empty listing. -/
theorem list_ops_bad_json_empty (s : St) (out err : String)
    (h0 : s.world s.count = .exited 0 out err)
    (hbad : jsonLoads out = none) :
    get_users s = .ok (Json.arr [],
      { s with
          count := s.count + 1
          calls := s.calls ++ [["oc", "get", "users", "-o", "json"]]
          logs := s.logs ++
            [(.debug, .executing ["oc", "get", "users", "-o", "json"]),
             (.error, .failedParseUsers)] }) ∧
    get_groups s = .ok (Json.arr [],
      { s with
          count := s.count + 1
          calls := s.calls ++ [["oc", "get", "groups", "-o", "json"]]
          logs := s.logs ++
            [(.debug, .executing ["oc", "get", "groups", "-o", "json"]),
             (.error, .failedParseGroups)] }) := by
  constructor <;>
    simp [get_users, get_groups, run_oc_command, run_result, runLogOf,
      logLine, h0, hbad]

/-- Witness for the C4 theorem at output `"nope"`. -/
theorem list_ops_bad_json_empty_witness :
    get_users (St.init wBadJson) = .ok (Json.arr [],
      { St.init wBadJson with
          count := 1
          calls := [["oc", "get", "users", "-o", "json"]]
          logs := [(.debug, .executing ["oc", "get", "users", "-o", "json"]),
                   (.error, .failedParseUsers)] }) ∧
    get_groups (St.init wBadJson) = .ok (Json.arr [],
      { St.init wBadJson with
          count := 1
          calls := [["oc", "get", "groups", "-o", "json"]]
          logs := [(.debug, .executing ["oc", "get", "groups", "-o", "json"]),
                   (.error, .failedParseGroups)] }) :=
  list_ops_bad_json_empty (St.init wBadJson) "nope" "" rfl rfl

/-- C10: a successful list query whose output parses to a JSON object with
no `items` key makes both list operations return the empty list with no
parse-error log line, identically to a response whose `items` is `[]`. -/
theorem list_ops_missing_items_empty (s t : St) (out err outE errE : String)
    (fields fieldsE : List (String × Json))
    (h0 : s.world s.count = .exited 0 out err)
    (hp : jsonLoads out = some (.obj fields))
    (hno : lookupField fields "items" = none)
    (h0t : t.world t.count = .exited 0 outE errE)
    (hpt : jsonLoads outE = some (.obj fieldsE))
    (hit : lookupField fieldsE "items" = some (Json.arr [])) :
    get_users s = .ok (Json.arr [],
      { s with
          count := s.count + 1
          calls := s.calls ++ [["oc", "get", "users", "-o", "json"]]
          logs := s.logs ++
            [(.debug, .executing ["oc", "get", "users", "-o", "json"])] }) ∧
    get_users t = .ok (Json.arr [],
      { t with
          count := t.count + 1
          calls := t.calls ++ [["oc", "get", "users", "-o", "json"]]
          logs := t.logs ++
            [(.debug, .executing ["oc", "get", "users", "-o", "json"])] }) ∧
    get_groups s = .ok (Json.arr [],
      { s with
          count := s.count + 1
          calls := s.calls ++ [["oc", "get", "groups", "-o", "json"]]
          logs := s.logs ++
            [(.debug, .executing ["oc", "get", "groups", "-o", "json"])] }) ∧
    get_groups t = .ok (Json.arr [],
      { t with
          count := t.count + 1
          calls := t.calls ++ [["oc", "get", "groups", "-o", "json"]]
          logs := t.logs ++
            [(.debug, .executing ["oc", "get", "groups", "-o", "json"])] }) := by
  refine ⟨?_, ?_, ?_, ?_⟩ <;>
    simp [get_users, get_groups, run_oc_command, run_result, runLogOf,
      logLine, h0, hp, hno, h0t, hpt, hit]

/-- Witness for the C10 theorem: an empty object and an object carrying an
empty `items` array. -/
theorem list_ops_missing_items_empty_witness :
    get_users (St.init wNoItems) = .ok (Json.arr [],
      { St.init wNoItems with
          count := 1
          calls := [["oc", "get", "users", "-o", "json"]]
          logs := [(.debug, .executing ["oc", "get", "users", "-o", "json"])] }) ∧
    get_users (St.init wEmptyItems) = .ok (Json.arr [],
      { St.init wEmptyItems with
          count := 1
          calls := [["oc", "get", "users", "-o", "json"]]
          logs := [(.debug, .executing ["oc", "get", "users", "-o", "json"])] }) ∧
    get_groups (St.init wNoItems) = .ok (Json.arr [],
      { St.init wNoItems with
          count := 1
          calls := [["oc", "get", "groups", "-o", "json"]]
          logs := [(.debug, .executing ["oc", "get", "groups", "-o", "json"])] }) ∧
    get_groups (St.init wEmptyItems) = .ok (Json.arr [],
      { St.init wEmptyItems with
          count := 1
          calls := [["oc", "get", "groups", "-o", "json"]]
          logs := [(.debug, .executing ["oc", "get", "groups", "-o", "json"])] }) :=
  list_ops_missing_items_empty (St.init wNoItems) (St.init wEmptyItems)
    "\x7b\x7d" "" "\x7b\"items\": []\x7d" "" [] [("items", Json.arr [])]
    rfl rfl rfl rfl rfl rfl

/-- C7: `check_connection` runs the identity query first; on its failure it
reports not-authenticated and returns false without running the context
query; otherwise it runs the context query, returning false on its failure
and, on success, logging the stripped context name and returning true. -/
theorem check_connection_policy (s : St) :
    ((run_result (s.world s.count)).1 = false →
      check_connection s = (false,
        { s with
            count := s.count + 1
            calls := s.calls ++ [["oc", "whoami"]]
            logs := s.logs ++ runLogOf ["oc", "whoami"] (s.world s.count)
              ++ [(.error, .notLoggedIn)] })) ∧
    ((run_result (s.world s.count)).1 = true →
     (run_result (s.world (s.count + 1))).1 = false →
      check_connection s = (false,
        { s with
            count := s.count + 2
            calls := s.calls ++ [["oc", "whoami"], ["oc", "project"]]
            logs := s.logs ++ runLogOf ["oc", "whoami"] (s.world s.count)
              ++ runLogOf ["oc", "project"] (s.world (s.count + 1))
              ++ [(.error, .failedGetProject)] })) ∧
    ((run_result (s.world s.count)).1 = true →
     (run_result (s.world (s.count + 1))).1 = true →
      check_connection s = (true,
        { s with
            count := s.count + 2
            calls := s.calls ++ [["oc", "whoami"], ["oc", "project"]]
            logs := s.logs ++ runLogOf ["oc", "whoami"] (s.world s.count)
              ++ runLogOf ["oc", "project"] (s.world (s.count + 1))
              ++ [(.info, .connected (pyStrip (run_result (s.world (s.count + 1))).2))] })) := by
  refine ⟨?_, ?_, ?_⟩
  · intro h1
    simp [check_connection, is_logged_in, run_oc_command, logLine, h1]
  · intro h1 h2
    simp [check_connection, is_logged_in, run_oc_command, logLine, h1, h2]
  · intro h1 h2
    simp [check_connection, is_logged_in, run_oc_command, logLine, h1, h2]

/-- Witness for the C7 theorem in all three concrete scenarios. -/
theorem check_connection_policy_witness :
    check_connection (St.init wFailAuth) = (false,
      { St.init wFailAuth with
          count := 1
          calls := [["oc", "whoami"]]
          logs := runLogOf ["oc", "whoami"] (wFailAuth 0)
            ++ [(.error, .notLoggedIn)] }) ∧
    check_connection (St.init wProjFail) = (false,
      { St.init wProjFail with
          count := 2
          calls := [["oc", "whoami"], ["oc", "project"]]
          logs := runLogOf ["oc", "whoami"] (wProjFail 0)
            ++ runLogOf ["oc", "project"] (wProjFail 1)
            ++ [(.error, .failedGetProject)] }) ∧
    check_connection (St.init wRun) = (true,
      { St.init wRun with
          count := 2
          calls := [["oc", "whoami"], ["oc", "project"]]
          logs := runLogOf ["oc", "whoami"] (wRun 0)
            ++ runLogOf ["oc", "project"] (wRun 1)
            ++ [(.info, .connected "me")] }) := by
  refine ⟨?_, ?_, ?_⟩
  · exact (check_connection_policy (St.init wFailAuth)).1 rfl
  · exact (check_connection_policy (St.init wProjFail)).2.1 rfl rfl
  · exact (check_connection_policy (St.init wRun)).2.2 rfl rfl

/-- C2: in `create_user`, once the create call has succeeded, a group whose
existence query fails and whose creation call also fails gets a warning
logged and no membership-add call (exactly the query and creation calls are
issued for it), the loop continues with the remaining groups, and the
function returns true overall. -/
theorem create_user_group_failure_isolated (username g : String)
    (rest : List String) (s : St)
    (h1 : (run_result (s.world s.count)).1 = true)
    (h2 : (run_result (s.world (s.count + 1))).1 = false)
    (h3 : (run_result (s.world (s.count + 2))).1 = false) :
    create_user username (some (g :: rest)) s =
      (true, addGroupsLoop username rest
        { s with
            count := s.count + 3
            calls := s.calls ++ [["oc", "create", "user", username],
              ["oc", "get", "group", g], ["oc", "adm", "groups", "new", g]]
            logs := s.logs
              ++ runLogOf ["oc", "create", "user", username] (s.world s.count)
              ++ [(.info, .userCreated username)]
              ++ runLogOf ["oc", "get", "group", g] (s.world (s.count + 1))
              ++ [(.info, .groupMissing g)]
              ++ runLogOf ["oc", "adm", "groups", "new", g] (s.world (s.count + 2))
              ++ [(.warning, .failedCreateGroup g)] }) := by
  simp [create_user, addGroupsLoop, run_oc_command, truthy, logLine, h1, h2, h3]

/-- Witness for the C2 theorem: create succeeds, the `dev` group query and
creation both fail, and the result is still `True` with no membership-add
call issued. -/
theorem create_user_group_failure_isolated_witness :
    (create_user "bob" (some ["dev"]) (St.init wC2)).1 = true ∧
    (create_user "bob" (some ["dev"]) (St.init wC2)).2.calls =
      [["oc", "create", "user", "bob"], ["oc", "get", "group", "dev"],
       ["oc", "adm", "groups", "new", "dev"]] ∧
    (create_user "bob" (some ["dev"]) (St.init wC2)).2.logs =
      [(.debug, .executing ["oc", "create", "user", "bob"]),
       (.info, .userCreated "bob"),
       (.debug, .executing ["oc", "get", "group", "dev"]),
       (.error, .commandFailed ["oc", "get", "group", "dev"]),
       (.error, .commandStderr "eget"),
       (.info, .groupMissing "dev"),
       (.debug, .executing ["oc", "adm", "groups", "new", "dev"]),
       (.error, .commandFailed ["oc", "adm", "groups", "new", "dev"]),
       (.error, .commandStderr "enew"),
       (.warning, .failedCreateGroup "dev")] := by
  have h := create_user_group_failure_isolated "bob" "dev" [] (St.init wC2)
    rfl rfl rfl
  rw [h]
  exact ⟨rfl, rfl, rfl⟩

/-- C3: `add_user_to_group` is fatal at either step: when the group query
fails and the group creation also fails it returns failure having issued
only those two calls (never the membership add); when group creation was
needed and succeeded but the membership add fails, or the group existed and
the membership add fails, it also returns failure. -/
theorem add_user_to_group_fatal (username group : String) (s : St) :
    ((run_result (s.world s.count)).1 = false →
     (run_result (s.world (s.count + 1))).1 = false →
      add_user_to_group username group s = (false,
        { s with
            count := s.count + 2
            calls := s.calls ++ [["oc", "get", "group", group],
              ["oc", "adm", "groups", "new", group]]
            logs := s.logs
              ++ runLogOf ["oc", "get", "group", group] (s.world s.count)
              ++ [(.info, .groupMissing group)]
              ++ runLogOf ["oc", "adm", "groups", "new", group] (s.world (s.count + 1))
              ++ [(.error, .failedCreateGroup group)] })) ∧
    ((run_result (s.world s.count)).1 = false →
     (run_result (s.world (s.count + 1))).1 = true →
     (run_result (s.world (s.count + 2))).1 = false →
      (add_user_to_group username group s).1 = false) ∧
    ((run_result (s.world s.count)).1 = true →
     (run_result (s.world (s.count + 1))).1 = false →
      (add_user_to_group username group s).1 = false) := by
  refine ⟨?_, ?_, ?_⟩
  · intro h1 h2
    simp [add_user_to_group, run_oc_command, logLine, h1, h2]
  · intro h1 h2 h3
    simp [add_user_to_group, addMembership, run_oc_command, logLine, h1, h2, h3]
  · intro h1 h2
    simp [add_user_to_group, addMembership, run_oc_command, logLine, h1, h2]

/-- Witness for the C3 theorem in its three concrete scenarios. -/
theorem add_user_to_group_fatal_witness :
    add_user_to_group "dave" "ops" (St.init wGetNewFail) = (false,
      { St.init wGetNewFail with
          count := 2
          calls := [["oc", "get", "group", "ops"],
            ["oc", "adm", "groups", "new", "ops"]]
          logs := runLogOf ["oc", "get", "group", "ops"] (wGetNewFail 0)
            ++ [(.info, .groupMissing "ops")]
            ++ runLogOf ["oc", "adm", "groups", "new", "ops"] (wGetNewFail 1)
            ++ [(.error, .failedCreateGroup "ops")] }) ∧
    (add_user_to_group "dave" "ops" (St.init wNewOkAddFail)).1 = false ∧
    (add_user_to_group "dave" "ops" (St.init wAddFail)).1 = false :=
  ⟨(add_user_to_group_fatal "dave" "ops" (St.init wGetNewFail)).1 rfl rfl,
   (add_user_to_group_fatal "dave" "ops" (St.init wNewOkAddFail)).2.1 rfl rfl rfl,
   (add_user_to_group_fatal "dave" "ops" (St.init wAddFail)).2.2 rfl rfl⟩

/-- C9: `--groups` with zero names is normalized to `None` before
`create_user` runs, so the create-user dispatch behaves identically to
omitting `--groups`; and `create_user` without groups issues exactly the
one user-create call — no group query, group creation or membership call. -/
theorem create_user_empty_groups_like_none (username : String) (s : St) :
    mainCreateUser username (some []) s = mainCreateUser username none s ∧
    (create_user username none s).2.calls =
      s.calls ++ [["oc", "create", "user", username]] ∧
    (create_user username none s).2.count = s.count + 1 := by
  refine ⟨rfl, ?_, ?_⟩ <;>
    cases hb : (run_result (s.world s.count)).1 <;>
      simp [create_user, run_oc_command, truthy, logLine, hb]

/-- C1 counterexample: invoked with no subcommand, against a world where
every call succeeds, the dispatcher makes two subprocess calls (the
connection check) before printing the usage help — not zero. -/
theorem main_noCommand_calls_counterexample :
    runHelpPrinted (OcExample.main Args.noCommand (St.init wAllOk)) = true ∧
    runCalls (OcExample.main Args.noCommand (St.init wAllOk)) =
      [["oc", "whoami"], ["oc", "project"]] ∧
    ¬ (runCalls (OcExample.main Args.noCommand (St.init wAllOk))).length = 0 := by
  refine ⟨rfl, rfl, by decide⟩

/-- C1 amended: with no subcommand the dispatcher still runs the connection
check first; when that check succeeds it logs "no command specified",
prints the usage help and exits 0, its only subprocess calls being the
connection check's identity and context queries; when the check fails it
exits 1 without printing help. -/
theorem main_noCommand_amended (s : St) :
    ((check_connection s).1 = true →
      OcExample.main Args.noCommand s =
        .ok (⟨0, true⟩, logLine .error .noCommandSpecified (check_connection s).2) ∧
      (check_connection s).2.calls =
        s.calls ++ [["oc", "whoami"], ["oc", "project"]]) ∧
    ((check_connection s).1 = false →
      OcExample.main Args.noCommand s = .ok (⟨1, false⟩, (check_connection s).2)) := by
  constructor
  · intro h
    refine ⟨by simp [OcExample.main, h], ?_⟩
    cases hb : (run_result (s.world s.count)).1 with
    | false =>
      simp [check_connection, is_logged_in, run_oc_command, logLine, hb] at h
    | true =>
      cases hc : (run_result (s.world (s.count + 1))).1 with
      | false =>
        simp [check_connection, is_logged_in, run_oc_command, logLine, hb, hc] at h
      | true =>
        simp [check_connection, is_logged_in, run_oc_command, logLine, hb, hc]
  · intro h
    simp [OcExample.main, h]

/-- Witness for the C1 amended theorem: a run where the connection check
succeeds and one where it fails. -/
theorem main_noCommand_amended_witness :
    OcExample.main Args.noCommand (St.init wAllOk) =
      .ok (⟨0, true⟩,
        logLine .error .noCommandSpecified (check_connection (St.init wAllOk)).2) ∧
    OcExample.main Args.noCommand (St.init wFailAuth) =
      .ok (⟨1, false⟩, (check_connection (St.init wFailAuth)).2) :=
  ⟨((main_noCommand_amended (St.init wAllOk)).1 rfl).1,
   (main_noCommand_amended (St.init wFailAuth)).2 rfl⟩


/-- Any `.ok` outcome of the `delete-user` branch carries exit 0. -/
theorem mainDeleteUser_exit_zero (username : String) (s : St) (o : MainOut)
    (s1 : St) (h : mainDeleteUser username s = .ok (o, s1)) : o = ⟨0, false⟩ := by
  unfold mainDeleteUser at h
  dsimp only at h
  repeat' split at h
  all_goals simp_all

/-- Any `.ok` outcome of the `list-users` branch carries exit 0. -/
theorem mainListUsers_exit_zero (s : St) (o : MainOut) (s1 : St)
    (h : mainListUsers s = .ok (o, s1)) : o = ⟨0, false⟩ := by
  unfold mainListUsers at h
  dsimp only at h
  repeat' split at h
  all_goals simp_all

/-- Any `.ok` outcome of the `create-user` branch carries exit 0. -/
theorem mainCreateUser_exit_zero (username : String)
    (groups : Option (List String)) (s : St) (o : MainOut) (s1 : St)
    (h : mainCreateUser username groups s = .ok (o, s1)) : o = ⟨0, false⟩ := by
  unfold mainCreateUser at h
  dsimp only at h
  repeat' split at h
  all_goals simp_all

/-- Any `.ok` outcome of the `add-to-group` branch carries exit 0. -/
theorem mainAddToGroup_exit_zero (username group : String) (s : St)
    (o : MainOut) (s1 : St)
    (h : mainAddToGroup username group s = .ok (o, s1)) : o = ⟨0, false⟩ := by
  unfold mainAddToGroup at h
  dsimp only at h
  repeat' split at h
  all_goals simp_all

/-- Any `.ok` outcome of the `list-groups` branch carries exit 0. -/
theorem mainListGroups_exit_zero (s : St) (o : MainOut) (s1 : St)
    (h : mainListGroups s = .ok (o, s1)) : o = ⟨0, false⟩ := by
  unfold mainListGroups at h
  dsimp only at h
  repeat' split at h
  all_goals simp_all

/-- C6: the process exit status is 1 exactly when the connection check
fails; every recognized subcommand whose connection check succeeds exits 0
whether or not the domain operation succeeded (operation failures are only
logged). -/
theorem main_exit_policy (args : Args) (s : St) :
    ((check_connection s).1 = false →
      OcExample.main args s = .ok (⟨1, false⟩, (check_connection s).2)) ∧
    (∀ o s1, OcExample.main args s = .ok (o, s1) →
      (o.exit = 1 ↔ (check_connection s).1 = false)) := by
  constructor
  · intro h
    simp [OcExample.main, h]
  · intro o s1 h
    by_cases hc : (check_connection s).1 = false
    · simp [OcExample.main, hc] at h
      simp [hc, ← h.1]
    · have hexit : o.exit = 0 := by
        simp only [OcExample.main] at h
        rw [if_neg hc] at h
        cases args with
        | listUsers => rw [mainListUsers_exit_zero _ _ _ h]
        | createUser username groups => rw [mainCreateUser_exit_zero _ _ _ _ _ h]
        | deleteUser username => rw [mainDeleteUser_exit_zero _ _ _ _ h]
        | addToGroup username group => rw [mainAddToGroup_exit_zero _ _ _ _ _ h]
        | listGroups => rw [mainListGroups_exit_zero _ _ _ h]
        | noCommand =>
          simp only [Except.ok.injEq, Prod.mk.injEq] at h
          rw [← h.1]
      simp [hexit, hc]

/-- Witness for the C6 theorem: a run whose connection check fails exits 1,
and a `list-users` run whose connection check succeeds exits 0 even though
nothing guarantees the listing contained anything. -/
theorem main_exit_policy_witness :
    OcExample.main Args.listUsers (St.init wFailAuth) =
      .ok (⟨1, false⟩, (check_connection (St.init wFailAuth)).2) ∧
    ((⟨0, false⟩ : MainOut).exit = 1 ↔ (check_connection (St.init wList)).1 = false) :=
  ⟨(main_exit_policy Args.listUsers (St.init wFailAuth)).1 rfl,
   (main_exit_policy Args.listUsers (St.init wList)).2 ⟨0, false⟩ _ rfl⟩

/-- `anyMatches` characterization: an `.ok found` result is true exactly
when some listed user's metadata name matches. -/
theorem anyMatches_ok_iff (username : String) (xs : List Json) (found : Bool)
    (h : anyMatches username xs = .ok found) :
    (found = true ↔ ∃ u, u ∈ xs ∧ userNameMatches u username = .ok true) := by
  induction xs generalizing found with
  | nil =>
    simp only [anyMatches, Except.ok.injEq] at h
    subst h
    simp
  | cons u rest ih =>
    simp only [anyMatches] at h
    cases hm : userNameMatches u username with
    | error e => rw [hm] at h; cases h
    | ok b =>
      rw [hm] at h
      cases b with
      | true =>
        simp only [Except.ok.injEq] at h
        subst h
        simp only [true_iff]
        exact ⟨u, List.mem_cons_self u rest, hm⟩
      | false =>
        have hr := ih found h
        constructor
        · intro hf
          rcases hr.mp hf with ⟨v, hv, hvm⟩
          exact ⟨v, List.mem_cons_of_mem u hv, hvm⟩
        · rintro ⟨v, hv, hvm⟩
          rcases List.mem_cons.mp hv with hvu | hv2
          · subst hvu; rw [hvm] at hm; cases hm
          · exact hr.mpr ⟨v, hv2, hvm⟩

/-- C8: after a successful create-user the dispatcher re-lists the users
and emits the "verified" info line precisely when some re-listed user's
metadata name equals the created username, and the not-found warning
otherwise. -/
theorem create_user_verification (username : String)
    (groupsArg : Option (List String)) (s : St) {s1 s2 : St} {usersJ : Json}
    {xs : List Json} {found : Bool}
    (h1 : create_user username (normalizeGroups groupsArg)
            (logLine .info (.creatingUser username) s) = (true, s1))
    (h2 : get_users (logLine .info (.createdUserSuccess username) s1) =
            .ok (usersJ, s2))
    (h3 : pyIter usersJ = .ok xs)
    (h4 : anyMatches username xs = .ok found) :
    mainCreateUser username groupsArg s =
      .ok (⟨0, false⟩,
        if found then logLine .info (.verifiedUser username) s2
        else logLine .warning (.userNotFound username) s2) ∧
    (found = true ↔ ∃ u, u ∈ xs ∧ userNameMatches u username = .ok true) := by
  constructor
  · simp only [mainCreateUser, h1, h2, h3, h4]
    cases found <;> simp
  · exact anyMatches_ok_iff username xs found h4

/-- Witness for the C8 theorem: the verification re-list contains `bob`, so
the final log line is the "verified" info line and the run exits 0. -/
theorem create_user_verification_witness :
    runExit (mainCreateUser "bob" none (St.init wC8)) = 0 ∧
    (runLogs (mainCreateUser "bob" none (St.init wC8))).getLast? =
      some (.info, .verifiedUser "bob") := by
  have h := create_user_verification "bob" none (St.init wC8) rfl rfl rfl rfl
  rw [h.1]
  constructor
  · rfl
  · rfl
